import Mathlib

/-!
# Verification of the ROCm Babeltrace2 source plugin

Shallow embedding of `bt_plugin_rocm_simple.py`: the record loader, the
channel classifier (`_get_channel_id`), the payload mapper
(`_get_event_class_name_by_category` plus the field-population loop of
`__next__`), the stream-multiplexing iterator (`__next__` as a fuel-driven
step function over an explicit state record), and the component
constructor (`RocmSource.__init__`).

Python machine integers in the trace database are unbounded for the
purposes of this program (sqlite INTEGER, Python int), so timestamps and
ids are embedded as `Int`.  Python's truthiness operator `x or d` is
embedded explicitly (`pyOrStr`, `pyOrInt`): it replaces both `None` and
the falsy values `""` / `0` by the default.
-/

namespace Rocpd

/-- A scalar payload value (Python str or int as stored in event args). -/
inductive Value where
  | str (s : String)
  | int (n : Int)
deriving DecidableEq, Repr

/-- Python `x or d` for an optional string: `None` and `""` are falsy. -/
def pyOrStr (v : Option String) (d : String) : String :=
  match v with
  | none => d
  | some s => if s = "" then d else s

/-- Python `x or d` for an optional int: `None` and `0` are falsy. -/
def pyOrInt (v : Option Int) (d : Int) : Int :=
  match v with
  | none => d
  | some n => if n = 0 then d else n

/-- Embedding of the `RocmEventData` dataclass.  `event_args` keeps the
dict's insertion order; a value of `none` models a Python `None` stored
in the dict. -/
structure RocmEventData where
  name : String
  timestamp : Int
  duration : Option Int := none
  category : Option String := none
  pid : Option Int := none
  tid : Option Int := none
  agent_id : Option Int := none
  queue_id : Option Int := none
  stream_id : Option Int := none
  channel_id : Option String := none
  event_args : List (String × Option Value) := []
deriving DecidableEq, Repr

/-- Embedding of `RocmSourceIterator._get_channel_id`. -/
def _get_channel_id (e : RocmEventData) : String :=
  let category := pyOrStr e.category "unknown"
  match e.tid with
  | some t => s!"{category}_thread_{t}"
  | none =>
    match e.queue_id with
    | some q => s!"{category}_queue_{q}"
    | none =>
      match e.stream_id with
      | some sid => s!"{category}_stream_{sid}"
      | none => s!"{category}_default_{pyOrInt e.pid 0}"

/-- Modelled from the spec's words for claim C4 (refinement comparison):
"category is replaced by the literal `unknown` when absent", i.e. only a
missing category defaults, a present (possibly empty) string is used
as-is.  The rest follows the claim's priority order verbatim,
`process_id or 0` included. -/
def channelIdSpec (e : RocmEventData) : String :=
  let category := e.category.getD "unknown"
  match e.tid with
  | some t => s!"{category}_thread_{t}"
  | none =>
    match e.queue_id with
    | some q => s!"{category}_queue_{q}"
    | none =>
      match e.stream_id with
      | some sid => s!"{category}_stream_{sid}"
      | none => s!"{category}_default_{pyOrInt e.pid 0}"

/-- Python `str.lower()` (the categories compared are ASCII). -/
def strToLower (s : String) : String := String.mk (s.data.map Char.toLower)

/-- Embedding of `RocmSourceIterator._get_event_class_name_by_category`.
The Python guard `if hasattr(event_data, 'category') and event_data.category:`
is a truthiness test: it fails for a missing category and for the empty
string; only then is the lowered category compared and, failing all
category branches, the event name searched for the substring `"region"`. -/
def _get_event_class_name_by_category (e : RocmEventData) : String :=
  match e.category with
  | some category0 =>
    if category0 = "" then "generic_event"
    else
      let category := strToLower category0
      if category = "hip_runtime_api_ext" then "region_event"
      else if category = "hip_compiler_api_ext" then "region_event"
      else if category = "kernel_dispatch" then "kernel_dispatch_event"
      else if category = "memory_copy" then "memory_copy_event"
      else if category = "memory_allocation" then "memory_allocation_event"
      else if "region".toList <:+: e.name.toList then "region_event"
      else "generic_event"
  | none => "generic_event"

/-! ## Record loader

Each record family's SQL query result is embedded as an
`Except String (List Row)`: `.error` models a `sqlite3.Error` raised by
`cursor.execute` / `cursor.fetchall` (which materialises all rows before
the first event is appended, so a failed query contributes no events at
all), `.ok rows` a successful fetch.  Column values that can be SQL NULL
(LEFT-JOINed columns, nullable columns) are `Option`-typed; columns the
query makes non-null (COALESCE, inner JOIN) are plain. -/

/-- A row of the region query in `_load_region_events`. -/
structure RegionRow where
  start : Int
  end_ : Int
  nid : Option Int
  pid : Option Int
  tid : Option Int
  region_name : String
  category : String
  process_name : String
  thread_name : String
  extdata : Option String
  correlation_id : Option Int
  call_stack : Option String
  line_info : Option String
deriving DecidableEq, Repr

/-- The `common_args` dict built for a region row. -/
def regionCommonArgs (r : RegionRow) : List (String × Option Value) :=
  [("region_name", some (.str r.region_name)),
   ("category", some (.str r.category)),
   ("process_name", some (.str r.process_name)),
   ("thread_name", some (.str r.thread_name)),
   ("pid", r.pid.map .int),
   ("tid", r.tid.map .int),
   ("nid", r.nid.map .int),
   ("correlation_id", some (.int (pyOrInt r.correlation_id 0))),
   ("extdata", some (.str (pyOrStr r.extdata "\x7b\x7d"))),
   ("call_stack", some (.str (pyOrStr r.call_stack "\x7b\x7d"))),
   ("line_info", some (.str (pyOrStr r.line_info "\x7b\x7d")))]

/-- The region-start event appended for a region row. -/
def regionStartEvent (r : RegionRow) : RocmEventData :=
  { name := r.region_name ++ "_start",
    timestamp := r.start,
    category := some r.category,
    pid := r.pid,
    tid := r.tid,
    event_args := regionCommonArgs r ++
      [("event_type", some (.str "region_start")), ("duration", some (.int 0))] }

/-- The region-end event appended for a region row. -/
def regionEndEvent (r : RegionRow) : RocmEventData :=
  { name := r.region_name ++ "_end",
    timestamp := r.end_,
    category := some r.category,
    pid := r.pid,
    tid := r.tid,
    event_args := regionCommonArgs r ++
      [("event_type", some (.str "region_end")),
       ("duration", some (.int (r.end_ - r.start)))] }

/-- Embedding of `_load_region_events`: a failed query is caught and
contributes zero events; a successful one contributes two events per row
in row order. -/
def _load_region_events (q : Except String (List RegionRow)) : List RocmEventData :=
  match q with
  | .error _ => []
  | .ok rows => rows.flatMap fun r => [regionStartEvent r, regionEndEvent r]

/-- A row of the kernel-dispatch query in `_load_kernel_dispatch_events`. -/
structure KernelRow where
  start : Int
  end_ : Int
  nid : Option Int
  pid : Option Int
  tid : Option Int
  agent_id : Option Int
  dispatch_id : Option Int
  queue_id : Option Int
  stream_id : Option Int
  workgroup_size_x : Int
  workgroup_size_y : Int
  workgroup_size_z : Int
  grid_size_x : Int
  grid_size_y : Int
  grid_size_z : Int
  kernel_name : Option String
  display_name : Option String
deriving DecidableEq, Repr

/-- `row['kernel_name'] or row['display_name'] or 'unknown_kernel'`. -/
def kernelNameOf (r : KernelRow) : String :=
  pyOrStr r.kernel_name (pyOrStr r.display_name "unknown_kernel")

/-- The kernel-dispatch-start event appended for a kernel row. -/
def kernelStartEvent (r : KernelRow) : RocmEventData :=
  { name := "kernel_dispatch_start",
    timestamp := r.start,
    category := some "KERNEL_DISPATCH",
    pid := r.pid,
    tid := r.tid,
    agent_id := r.agent_id,
    queue_id := r.queue_id,
    stream_id := r.stream_id,
    event_args :=
      [("kernel_name", some (.str (kernelNameOf r))),
       ("dispatch_id", r.dispatch_id.map .int),
       ("queue_id", some (.int (pyOrInt r.queue_id 0))),
       ("stream_id", some (.int (pyOrInt r.stream_id 0))),
       ("workgroup_size", some (.str
         s!"{r.workgroup_size_x}x{r.workgroup_size_y}x{r.workgroup_size_z}")),
       ("grid_size", some (.str s!"{r.grid_size_x}x{r.grid_size_y}x{r.grid_size_z}")),
       ("event_type", some (.str "kernel_dispatch_start")),
       ("duration", some (.int 0))] }

/-- The kernel-dispatch-end event appended for a kernel row. -/
def kernelEndEvent (r : KernelRow) : RocmEventData :=
  { name := "kernel_dispatch_end",
    timestamp := r.end_,
    category := some "KERNEL_DISPATCH",
    pid := r.pid,
    tid := r.tid,
    agent_id := r.agent_id,
    queue_id := r.queue_id,
    stream_id := r.stream_id,
    event_args :=
      [("kernel_name", some (.str (kernelNameOf r))),
       ("dispatch_id", r.dispatch_id.map .int),
       ("event_type", some (.str "kernel_dispatch_end")),
       ("duration", some (.int (r.end_ - r.start)))] }

/-- Embedding of `_load_kernel_dispatch_events`. -/
def _load_kernel_dispatch_events (q : Except String (List KernelRow)) :
    List RocmEventData :=
  match q with
  | .error _ => []
  | .ok rows => rows.flatMap fun r => [kernelStartEvent r, kernelEndEvent r]

/-- A row of the memory-copy query in `_load_memory_copy_events`. -/
structure MemcopyRow where
  start : Int
  end_ : Int
  nid : Option Int
  pid : Option Int
  tid : Option Int
  size : Option Int
  dst_agent_id : Option Int
  src_agent_id : Option Int
  queue_id : Option Int
  stream_id : Option Int
  name : String
deriving DecidableEq, Repr

/-- The memory-copy-start event appended for a memory-copy row. -/
def memcopyStartEvent (r : MemcopyRow) : RocmEventData :=
  { name := "memory_copy_start",
    timestamp := r.start,
    category := some "MEMORY_COPY",
    pid := r.pid,
    tid := r.tid,
    queue_id := r.queue_id,
    stream_id := r.stream_id,
    event_args :=
      [("copy_name", some (.str r.name)),
       ("size", some (.int (pyOrInt r.size 0))),
       ("dst_agent_id", some (.int (pyOrInt r.dst_agent_id 0))),
       ("src_agent_id", some (.int (pyOrInt r.src_agent_id 0))),
       ("queue_id", some (.int (pyOrInt r.queue_id 0))),
       ("stream_id", some (.int (pyOrInt r.stream_id 0))),
       ("event_type", some (.str "memory_copy_start")),
       ("duration", some (.int 0))] }

/-- The memory-copy-end event appended for a memory-copy row. -/
def memcopyEndEvent (r : MemcopyRow) : RocmEventData :=
  { name := "memory_copy_end",
    timestamp := r.end_,
    category := some "MEMORY_COPY",
    pid := r.pid,
    tid := r.tid,
    queue_id := r.queue_id,
    stream_id := r.stream_id,
    event_args :=
      [("copy_name", some (.str r.name)),
       ("size", some (.int (pyOrInt r.size 0))),
       ("event_type", some (.str "memory_copy_end")),
       ("duration", some (.int (r.end_ - r.start)))] }

/-- Embedding of `_load_memory_copy_events`. -/
def _load_memory_copy_events (q : Except String (List MemcopyRow)) :
    List RocmEventData :=
  match q with
  | .error _ => []
  | .ok rows => rows.flatMap fun r => [memcopyStartEvent r, memcopyEndEvent r]

/-- A row of the memory-allocation query in `_load_memory_allocation_events`. -/
structure MemallocRow where
  start : Int
  end_ : Int
  nid : Option Int
  pid : Option Int
  tid : Option Int
  size : Option Int
  agent_id : Option Int
  name : String
deriving DecidableEq, Repr

/-- The memory-allocation-start event appended for a memory-allocation row. -/
def memallocStartEvent (r : MemallocRow) : RocmEventData :=
  { name := "memory_allocation_start",
    timestamp := r.start,
    category := some "MEMORY_ALLOCATION",
    pid := r.pid,
    tid := r.tid,
    agent_id := r.agent_id,
    event_args :=
      [("allocation_name", some (.str r.name)),
       ("size", some (.int (pyOrInt r.size 0))),
       ("agent_id", some (.int (pyOrInt r.agent_id 0))),
       ("event_type", some (.str "memory_allocation_start")),
       ("duration", some (.int 0))] }

/-- The memory-allocation-end event appended for a memory-allocation row. -/
def memallocEndEvent (r : MemallocRow) : RocmEventData :=
  { name := "memory_allocation_end",
    timestamp := r.end_,
    category := some "MEMORY_ALLOCATION",
    pid := r.pid,
    tid := r.tid,
    agent_id := r.agent_id,
    event_args :=
      [("allocation_name", some (.str r.name)),
       ("size", some (.int (pyOrInt r.size 0))),
       ("event_type", some (.str "memory_allocation_end")),
       ("duration", some (.int (r.end_ - r.start)))] }

/-- Embedding of `_load_memory_allocation_events`. -/
def _load_memory_allocation_events (q : Except String (List MemallocRow)) :
    List RocmEventData :=
  match q with
  | .error _ => []
  | .ok rows => rows.flatMap fun r => [memallocStartEvent r, memallocEndEvent r]

/-- The comparison key of `self._current_events.sort(key=lambda x: x.timestamp)`. -/
def tsLE (a b : RocmEventData) : Prop := a.timestamp ≤ b.timestamp

instance : DecidableRel tsLE := fun a b =>
  inferInstanceAs (Decidable (a.timestamp ≤ b.timestamp))

instance : IsTotal RocmEventData tsLE := ⟨fun a b => Int.le_total a.timestamp b.timestamp⟩

instance : IsTrans RocmEventData tsLE := ⟨fun _ _ _ => Int.le_trans⟩

/-- Python's `list.sort` is a stable sort by the given key; its extensional
behaviour is embedded by the stable insertion sort on the timestamp
preorder. -/
def sortByTimestamp (l : List RocmEventData) : List RocmEventData :=
  l.insertionSort tsLE

/-- Embedding of `_load_events`: concatenate the four families in the fixed
program order, then sort (stably) by timestamp. -/
def _load_events (qr : Except String (List RegionRow))
    (qk : Except String (List KernelRow))
    (qm : Except String (List MemcopyRow))
    (qa : Except String (List MemallocRow)) : List RocmEventData :=
  sortByTimestamp
    (_load_region_events qr ++ _load_kernel_dispatch_events qk ++
     _load_memory_copy_events qm ++ _load_memory_allocation_events qa)

/-! ## Event classes and payload population

`RocmSource._create_event_classes` builds exactly five event classes; a
payload structure is embedded as an association list from field name to
current value, initialised to the babeltrace2 type defaults (empty string
for string fields, 0 for signed integer fields). -/

/-- Payload fields of `region_event`, in declaration order. -/
def regionFields : List (String × Value) :=
  [("region_name", .str ""), ("event_type", .str ""), ("category", .str ""),
   ("process_name", .str ""), ("thread_name", .str ""), ("pid", .int 0),
   ("tid", .int 0), ("nid", .int 0), ("correlation_id", .int 0),
   ("duration", .int 0), ("extdata", .str ""), ("call_stack", .str ""),
   ("line_info", .str "")]

/-- Payload fields of `kernel_dispatch_event`. -/
def kernelFields : List (String × Value) :=
  [("kernel_name", .str ""), ("event_type", .str ""), ("dispatch_id", .int 0),
   ("queue_id", .int 0), ("stream_id", .int 0), ("workgroup_size", .str ""),
   ("grid_size", .str ""), ("duration", .int 0)]

/-- Payload fields of `memory_copy_event`. -/
def memoryCopyFields : List (String × Value) :=
  [("copy_name", .str ""), ("event_type", .str ""), ("size", .int 0),
   ("dst_agent_id", .int 0), ("src_agent_id", .int 0), ("queue_id", .int 0),
   ("stream_id", .int 0), ("duration", .int 0)]

/-- Payload fields of `memory_allocation_event`. -/
def allocationFields : List (String × Value) :=
  [("allocation_name", .str ""), ("event_type", .str ""), ("size", .int 0),
   ("agent_id", .int 0), ("duration", .int 0)]

/-- Payload fields of `generic_event`. -/
def genericFields : List (String × Value) := [("event_type", .str "")]

/-- Embedding of `self._event_classes.get(name)`: the dict built by
`_create_event_classes`, keyed by class name, valued by the default
payload structure of that class. -/
def eventClassGet (cn : String) : Option (List (String × Value)) :=
  if cn = "region_event" then some regionFields
  else if cn = "kernel_dispatch_event" then some kernelFields
  else if cn = "memory_copy_event" then some memoryCopyFields
  else if cn = "memory_allocation_event" then some allocationFields
  else if cn = "generic_event" then some genericFields
  else none

/-- `msg.event.payload_field[key] = value`: assignment to an existing
field of the payload structure (assignment never adds a field). -/
def setField (pl : List (String × Value)) (k : String) (v : Value) :
    List (String × Value) :=
  pl.map fun p => if p.1 = k then (p.1, v) else p

/-- One iteration of the field-population loop of `__next__`: copy
`value` into the payload only if `key` is a payload field
(`key in msg.event.payload_field`) and `value` is not `None`. -/
def popStep (acc : List (String × Value)) (kv : String × Option Value) :
    List (String × Value) :=
  if (acc.map Prod.fst).contains kv.1 then
    match kv.2 with
    | some v => setField acc kv.1 v
    | none => acc
  else acc

/-- Embedding of the field-population loop of `__next__` over all of
`event_args` in dict order. -/
def populate (pl : List (String × Value)) (args : List (String × Option Value)) :
    List (String × Value) :=
  args.foldl popStep pl

/-! ## The stream-multiplexing iterator

`RocmSourceIterator.__next__` is embedded as a fuel-driven trace function
over an explicit iterator state.  One unit of fuel is one call of
`__next__` (also the internal recursive self-calls); a sufficient fuel
bound is proved below, so the produced message list is fuel-independent
past that bound. -/

/-- The `self._state` string. -/
inductive MuxPhase where
  | streamBeginning
  | events
  | streamEnd
  | done
deriving DecidableEq, Repr

/-- The channel info stored in `self._channels[channel_id]`. -/
structure ChannelInfo where
  category : Option String
  channel_id : String
  tid : Option Int
  queue_id : Option Int
  stream_id : Option Int
deriving DecidableEq, Repr

/-- Mutable state of `RocmSourceIterator`.  Stream objects created by
`self._trace.create_stream` are identified by allocation order
(`nextStreamId` is the allocator); Python object equality of two streams
returned by `_get_or_create_stream` is equality of these ids. -/
structure IterState where
  events : List RocmEventData
  eventIndex : Nat
  phase : MuxPhase
  streams : List (String × Nat)
  nextStreamId : Nat
  channels : List (String × ChannelInfo)
  currentStream : Option Nat
deriving DecidableEq, Repr

/-- A message returned by `__next__`. -/
inductive Msg where
  | streamBeginning (stream : Nat)
  | eventMsg (stream : Nat) (className : String) (timestamp : Int)
      (payload : List (String × Value))
  | streamEnd (stream : Nat)
deriving DecidableEq, Repr

/-- Embedding of `_get_or_create_stream`: look the channel id up in
`self._streams`; on a miss create a fresh stream, record it and the
channel info. -/
def _get_or_create_stream (s : IterState) (e : RocmEventData) : Nat × IterState :=
  let cid := _get_channel_id e
  match s.streams.lookup cid with
  | some sid => (sid, s)
  | none =>
    let sid := s.nextStreamId
    (sid,
     { s with
       streams := s.streams ++ [(cid, sid)],
       nextStreamId := sid + 1,
       channels := s.channels ++
         [(cid, ⟨e.category, cid, e.tid, e.queue_id, e.stream_id⟩)] })

/-- Embedding of repeated calls to `__next__` until `StopIteration`,
collecting the returned messages.  Each branch mirrors one branch of the
Python method; note that in the `"events"` state the cursor
`self._event_index` is incremented *before* the channel-switch check, so
a step that returns a stream-beginning message has already consumed the
event it examined. -/
def runFuel : Nat → IterState → List Msg
  | 0, _ => []
  | fuel + 1, s =>
    match s.phase with
    | .streamBeginning =>
      match s.events with
      | [] => []
      | e :: _ =>
        let p := _get_or_create_stream s e
        Msg.streamBeginning p.1 ::
          runFuel fuel { p.2 with phase := .events, currentStream := some p.1 }
    | .events =>
      match s.events[s.eventIndex]? with
      | some e =>
        let s1 := { s with eventIndex := s.eventIndex + 1 }
        let p := _get_or_create_stream s1 e
        if some p.1 ≠ s.currentStream then
          Msg.streamBeginning p.1 ::
            runFuel fuel { p.2 with currentStream := some p.1 }
        else
          let cn0 := _get_event_class_name_by_category e
          match eventClassGet cn0 with
          | some fields =>
            Msg.eventMsg p.1 cn0 e.timestamp (populate fields e.event_args) ::
              runFuel fuel p.2
          | none =>
            match eventClassGet "generic_event" with
            | some fields =>
              Msg.eventMsg p.1 "generic_event" e.timestamp
                  (populate fields e.event_args) ::
                runFuel fuel p.2
            | none => runFuel fuel p.2
      | none => runFuel fuel { s with phase := .streamEnd }
    | .streamEnd =>
      match s.currentStream with
      | some sid => [Msg.streamEnd sid]
      | none => []
    | .done => []

/-- The iterator state right after `RocmSourceIterator.__init__`. -/
def initState (l : List RocmEventData) : IterState :=
  { events := l, eventIndex := 0, phase := .streamBeginning, streams := [],
    nextStreamId := 0, channels := [], currentStream := none }

/-- Fuel that is always sufficient for `runFuel` to reach `StopIteration`
from a state: every call strictly decreases this measure. -/
def muxMeasure (s : IterState) : Nat :=
  3 * (s.events.length - s.eventIndex) +
    (match s.phase with
     | .streamBeginning => 3
     | .events => 2
     | .streamEnd => 1
     | .done => 0)

/-- The full message sequence produced for a loaded event list. -/
def muxTrace (l : List RocmEventData) : List Msg :=
  runFuel (muxMeasure (initState l)) (initState l)

/-! ## The source component constructor -/

/-- The default of `params.get('db-path', '24228_results.db')`. -/
def defaultDbPath : String := "24228_results.db"

/-- The two exception kinds `RocmSource.__init__` can raise. -/
inductive InitError where
  | valueError (msg : String)
  | fileNotFoundError (msg : String)
deriving DecidableEq, Repr

/-- Embedding of the parameter validation of `RocmSource.__init__`:
`dbPathParam` is the `db-path` component parameter (absent or its string
value), `pathExists` the `os.path.exists` oracle.  On success the
accepted database path is returned. -/
def rocmSourceInit (dbPathParam : Option String) (pathExists : String → Bool) :
    Except InitError String :=
  let dbPath := dbPathParam.getD defaultDbPath
  if dbPath = "" then
    .error (.valueError "Database path parameter 'db-path' is required")
  else if !pathExists dbPath then
    .error (.fileNotFoundError s!"Database file not found: {dbPath}")
  else
    .ok dbPath

/-- Construction composed with iteration: messages exist only for a
successfully constructed component, so a constructor error precedes any
message. -/
def rocmSourceMessages (dbPathParam : Option String) (pathExists : String → Bool)
    (qr : Except String (List RegionRow)) (qk : Except String (List KernelRow))
    (qm : Except String (List MemcopyRow)) (qa : Except String (List MemallocRow)) :
    Except InitError (List Msg) :=
  (rocmSourceInit dbPathParam pathExists).map fun _ =>
    muxTrace (_load_events qr qk qm qa)

/-! ## Predicates used by the verification -/

/-- The `duration` entry of an event's args, when it is a non-null int. -/
def durationArg (e : RocmEventData) : Option Int :=
  match e.event_args.lookup "duration" with
  | some (some (.int n)) => some n
  | _ => none

/-- Consecutive pairing of a list by a binary relation. -/
inductive PairedBy (P : RocmEventData → RocmEventData → Prop) :
    List RocmEventData → Prop where
  | nil : PairedBy P []
  | cons {a b : RocmEventData} {l : List RocmEventData} :
      P a b → PairedBy P l → PairedBy P (a :: b :: l)

/-- A correct (start, end) pair: same channel key, duration arg `0` on
the start, duration arg `end_timestamp - start_timestamp` on the end. -/
def goodPair (a b : RocmEventData) : Prop :=
  _get_channel_id a = _get_channel_id b ∧
  durationArg a = some 0 ∧
  durationArg b = some (b.timestamp - a.timestamp)

/-- Iterated `_get_or_create_stream`, keeping only the state: the effect
of classifying a further list of events in order. -/
def processAll (s : IterState) (es : List RocmEventData) : IterState :=
  es.foldl (fun st e => (_get_or_create_stream st e).2) s

/-- Number of channel-end (stream-end) messages in a message list. -/
def countEnds (ms : List Msg) : Nat :=
  ms.countP fun m => match m with | .streamEnd _ => true | _ => false

/-- The number of channel-end messages `runFuel` still emits from a
state (given sufficient fuel). -/
def expectedEnds (s : IterState) : Nat :=
  match s.phase with
  | .streamBeginning => if s.events.isEmpty then 0 else 1
  | .events =>
    if s.currentStream.isSome || decide (s.eventIndex < s.events.length) then 1
    else 0
  | .streamEnd => if s.currentStream.isSome then 1 else 0
  | .done => 0

/-- Framing discipline of an emitted message sequence relative to the
currently open stream: an event message is always on the stream of the
most recent channel-begin (so no other channel's events are interleaved
into an open span), and a channel-end names the open stream and closes
it. -/
inductive WellFramed : Option Nat → List Msg → Prop where
  | nil (cur : Option Nat) : WellFramed cur []
  | ev {sid : Nat} {rest : List Msg} (cn : String) (ts : Int)
      (pl : List (String × Value)) :
      WellFramed (some sid) rest →
      WellFramed (some sid) (Msg.eventMsg sid cn ts pl :: rest)
  | chbegin {rest : List Msg} (cur : Option Nat) (sid : Nat) :
      WellFramed (some sid) rest →
      WellFramed cur (Msg.streamBeginning sid :: rest)
  | chend {sid : Nat} {rest : List Msg} :
      WellFramed none rest → WellFramed (some sid) (Msg.streamEnd sid :: rest)

/-! ## Helper lemmas about payload population -/

theorem setField_keys (pl : List (String × Value)) (k : String) (v : Value) :
    (setField pl k v).map Prod.fst = pl.map Prod.fst := by
  induction pl with
  | nil => rfl
  | cons p t ih =>
    simp only [setField, List.map_cons] at ih ⊢
    by_cases h : p.1 = k <;> simp [h, ih]

theorem popStep_keys (pl : List (String × Value)) (kv : String × Option Value) :
    (popStep pl kv).map Prod.fst = pl.map Prod.fst := by
  unfold popStep
  split
  · cases kv.2 with
    | none => rfl
    | some v => exact setField_keys pl kv.1 v
  · rfl

theorem populate_keys (args : List (String × Option Value)) :
    ∀ pl : List (String × Value), (populate pl args).map Prod.fst = pl.map Prod.fst := by
  induction args with
  | nil => intro pl; rfl
  | cons kv t ih =>
    intro pl
    show (populate (popStep pl kv) t).map Prod.fst = _
    rw [ih, popStep_keys]

theorem popStep_none (pl : List (String × Value)) (k : String) :
    popStep pl (k, none) = pl := by
  unfold popStep; split <;> rfl

theorem popStep_unknown (pl : List (String × Value)) (kv : String × Option Value)
    (h : (pl.map Prod.fst).contains kv.1 = false) : popStep pl kv = pl := by
  unfold popStep
  rw [h]
  simp

theorem setField_lookup (k : String) (v : Value) :
    ∀ pl : List (String × Value), (pl.map Prod.fst).contains k = true →
      (setField pl k v).lookup k = some v := by
  intro pl
  induction pl with
  | nil => intro h; simp at h
  | cons p t ih =>
    obtain ⟨pk, pv⟩ := p
    intro h
    simp only [List.map_cons, List.contains_cons, Bool.or_eq_true, beq_iff_eq] at h
    by_cases hp : pk = k
    · subst hp
      rw [show setField ((pk, pv) :: t) pk v = (pk, v) :: setField t pk v from by
        simp [setField]]
      simp [List.lookup]
    · have hk : (k == pk) = false := beq_eq_false_iff_ne.2 fun he => hp he.symm
      have ht : (t.map Prod.fst).contains k = true := by
        rcases h with h | h
        · exact absurd h.symm hp
        · exact h
      have := ih ht
      simp only [setField, List.map_cons] at this ⊢
      rw [if_neg hp]
      simpa [List.lookup, hk] using this

theorem populate_filter_isSome (args : List (String × Option Value)) :
    ∀ pl : List (String × Value),
      populate pl (args.filter fun kv => kv.2.isSome) = populate pl args := by
  induction args with
  | nil => intro pl; rfl
  | cons kv t ih =>
    intro pl
    obtain ⟨k, v⟩ := kv
    cases v with
    | none =>
      rw [List.filter_cons]
      simp only [Option.isSome_none, Bool.false_eq_true, if_false]
      rw [ih pl]
      show populate pl t = populate (popStep pl (k, none)) t
      rw [popStep_none]
    | some v =>
      rw [List.filter_cons]
      simp only [Option.isSome_some, if_true]
      show populate (popStep pl (k, some v)) (t.filter _) =
        populate (popStep pl (k, some v)) t
      exact ih _

theorem populate_filter_known (args : List (String × Option Value)) :
    ∀ (pl : List (String × Value)) (K : List String), pl.map Prod.fst = K →
      populate pl (args.filter fun kv => K.contains kv.1) = populate pl args := by
  induction args with
  | nil => intro pl K _; rfl
  | cons kv t ih =>
    intro pl K hK
    rw [List.filter_cons]
    by_cases hc : K.contains kv.1 = true
    · rw [if_pos hc]
      show populate (popStep pl kv) (t.filter _) = populate (popStep pl kv) t
      exact ih _ K (by rw [popStep_keys, hK])
    · have hc' : K.contains kv.1 = false := by simpa using hc
      simp only [hc', Bool.false_eq_true, if_false]
      rw [ih pl K hK]
      show populate pl t = populate (popStep pl kv) t
      rw [popStep_unknown pl kv (by rw [hK]; exact hc')]

/-- Every event message any run emits carries a payload whose field set
is exactly the declared field set of its (existing) event class. -/
theorem runFuel_eventMsg_fields :
    ∀ (fuel : Nat) (s : IterState) (sid : Nat) (cn : String) (ts : Int)
      (pl : List (String × Value)),
      Msg.eventMsg sid cn ts pl ∈ runFuel fuel s →
      ∃ fields, eventClassGet cn = some fields ∧
        pl.map Prod.fst = fields.map Prod.fst := by
  intro fuel
  induction fuel with
  | zero => intro s sid cn ts pl hm; simp [runFuel] at hm
  | succ n ih =>
    intro s sid cn ts pl hm
    simp only [runFuel] at hm
    cases hph : s.phase <;> simp only [hph] at hm
    · cases hev : s.events <;> simp only [hev] at hm
      · simp at hm
      · rcases List.mem_cons.1 hm with h | h
        · exact Msg.noConfusion h
        · exact ih _ _ _ _ _ h
    · cases hE : s.events[s.eventIndex]? with
      | none =>
        simp only [hE] at hm
        exact ih _ _ _ _ _ hm
      | some e =>
        simp only [hE] at hm
        split at hm
        · rcases List.mem_cons.1 hm with h | h
          · exact Msg.noConfusion h
          · exact ih _ _ _ _ _ h
        · split at hm
          · rename_i fields heq
            rcases List.mem_cons.1 hm with h | h
            · injection h with h1 h2 h3 h4
              subst h2; subst h4
              exact ⟨fields, heq, populate_keys _ _⟩
            · exact ih _ _ _ _ _ h
          · split at hm
            · rename_i fields heq
              rcases List.mem_cons.1 hm with h | h
              · injection h with h1 h2 h3 h4
                subst h2; subst h4
                exact ⟨fields, heq, populate_keys _ _⟩
              · exact ih _ _ _ _ _ h
            · exact ih _ _ _ _ _ hm
    · cases hcur : s.currentStream <;> simp only [hcur] at hm
      · simp at hm
      · rcases List.mem_singleton.1 hm with h
        exact Msg.noConfusion h
    · simp at hm

/-! ## Helper lemmas about the multiplexer -/

theorem lookup_append_left {β : Type} {l₁ : List (String × β)} {k : String} {v : β}
    (l₂ : List (String × β)) (h : l₁.lookup k = some v) :
    (l₁ ++ l₂).lookup k = some v := by
  induction l₁ with
  | nil => simp [List.lookup] at h
  | cons p t ih =>
    rw [List.cons_append]
    cases hk : (k == p.1) with
    | true =>
      obtain ⟨pk, pv⟩ := p
      simp only [List.lookup, hk] at h ⊢
      exact h
    | false =>
      obtain ⟨pk, pv⟩ := p
      simp only [List.lookup, hk] at h ⊢
      exact ih h

theorem lookup_append_self {β : Type} {l : List (String × β)} {k : String}
    (v : β) (h : l.lookup k = none) :
    (l ++ [(k, v)]).lookup k = some v := by
  induction l with
  | nil => simp [List.lookup]
  | cons p t ih =>
    obtain ⟨pk, pv⟩ := p
    cases hk : (k == pk) with
    | true =>
      simp only [List.lookup, hk] at h
      exact Option.noConfusion h
    | false =>
      simp only [List.lookup, hk] at h
      simpa only [List.cons_append, List.lookup, hk] using ih h

theorem gocs_events (s : IterState) (e : RocmEventData) :
    (_get_or_create_stream s e).2.events = s.events := by
  simp only [_get_or_create_stream]
  cases h : List.lookup (_get_channel_id e) s.streams <;> simp [h]

theorem gocs_eventIndex (s : IterState) (e : RocmEventData) :
    (_get_or_create_stream s e).2.eventIndex = s.eventIndex := by
  simp only [_get_or_create_stream]
  cases h : List.lookup (_get_channel_id e) s.streams <;> simp [h]

theorem gocs_phase (s : IterState) (e : RocmEventData) :
    (_get_or_create_stream s e).2.phase = s.phase := by
  simp only [_get_or_create_stream]
  cases h : List.lookup (_get_channel_id e) s.streams <;> simp [h]

theorem gocs_currentStream (s : IterState) (e : RocmEventData) :
    (_get_or_create_stream s e).2.currentStream = s.currentStream := by
  simp only [_get_or_create_stream]
  cases h : List.lookup (_get_channel_id e) s.streams <;> simp [h]

/-- A hit in `self._streams` returns the stored stream and leaves the
whole iterator state unchanged. -/
theorem gocs_found {s : IterState} {e : RocmEventData} {sid : Nat}
    (h : s.streams.lookup (_get_channel_id e) = some sid) :
    _get_or_create_stream s e = (sid, s) := by
  simp only [_get_or_create_stream]
  rw [h]

/-- After `_get_or_create_stream`, the event's channel id is bound to the
returned stream. -/
theorem gocs_lookup (s : IterState) (e : RocmEventData) :
    (_get_or_create_stream s e).2.streams.lookup (_get_channel_id e) =
      some (_get_or_create_stream s e).1 := by
  simp only [_get_or_create_stream]
  cases h : List.lookup (_get_channel_id e) s.streams with
  | some sid => simp [h]
  | none =>
    simp only [h]
    exact lookup_append_self _ h

/-- `_get_or_create_stream` never rebinds an existing channel id. -/
theorem gocs_preserves {s : IterState} {k : String} {sid : Nat}
    (e : RocmEventData) (h : s.streams.lookup k = some sid) :
    (_get_or_create_stream s e).2.streams.lookup k = some sid := by
  simp only [_get_or_create_stream]
  cases hc : List.lookup (_get_channel_id e) s.streams with
  | some sid' =>
    simp only [hc]
    exact h
  | none =>
    simp only [hc]
    exact lookup_append_left _ h

theorem processAll_preserves {k : String} {sid : Nat} :
    ∀ (es : List RocmEventData) (s : IterState),
      s.streams.lookup k = some sid →
      (processAll s es).streams.lookup k = some sid := by
  intro es
  induction es with
  | nil => intro s h; exact h
  | cons e t ih =>
    intro s h
    exact ih _ (gocs_preserves e h)

/-- `WellFramed.ev` with the open stream given propositionally. -/
theorem WellFramed.ev' {cur : Option Nat} {sid : Nat} (h : cur = some sid)
    (cn : String) (ts : Int) (pl : List (String × Value)) {rest : List Msg}
    (hr : WellFramed (some sid) rest) :
    WellFramed cur (Msg.eventMsg sid cn ts pl :: rest) := by
  rw [h]
  exact .ev cn ts pl hr

/-- Every run of the iterator is well framed: event messages ride the
stream of the most recent channel-begin, and a channel-end closes the
currently open stream. -/
theorem runFuel_wellFramed :
    ∀ (fuel : Nat) (s : IterState), WellFramed s.currentStream (runFuel fuel s) := by
  intro fuel
  induction fuel with
  | zero => intro s; exact .nil _
  | succ n ih =>
    intro s
    have IH : ∀ (S : IterState) (cur : Option Nat), S.currentStream = cur →
        WellFramed cur (runFuel n S) := fun S cur hc => hc ▸ ih S
    simp only [runFuel]
    split
    · -- state "stream_beginning"
      split
      · exact .nil _
      · exact .chbegin _ _ (IH _ _ rfl)
    · -- state "events"
      split
      · -- an event is available at the cursor
        split
        · -- channel switch: emit channel-begin (the event is consumed)
          exact .chbegin _ _ (IH _ _ rfl)
        · -- same channel: emit the event (or skip it)
          rename_i e hne
          rw [not_ne_iff] at hne
          split
          · refine WellFramed.ev' hne.symm _ _ _ (IH _ _ ?_)
            rw [gocs_currentStream]
            exact hne.symm
          · split
            · refine WellFramed.ev' hne.symm _ _ _ (IH _ _ ?_)
              rw [gocs_currentStream]
              exact hne.symm
            · refine IH _ _ ?_
              rw [gocs_currentStream]
      · -- cursor exhausted: switch to "stream_end"
        exact IH _ _ rfl
    · -- state "stream_end"
      split
      · rename_i hcur
        rw [hcur]
        exact .chend (.nil _)
      · exact .nil _
    · -- state "done"
      exact .nil _

theorem countEnds_cons_begin (sid : Nat) (ms : List Msg) :
    countEnds (Msg.streamBeginning sid :: ms) = countEnds ms := by
  simp [countEnds]

theorem countEnds_cons_event (sid : Nat) (cn : String) (ts : Int)
    (pl : List (String × Value)) (ms : List Msg) :
    countEnds (Msg.eventMsg sid cn ts pl :: ms) = countEnds ms := by
  simp [countEnds]

/-- Given sufficient fuel, the number of channel-end messages a run
emits is `expectedEnds` of the state; in particular a run from a state
with an open channel emits exactly one channel-end. -/
theorem countEnds_runFuel :
    ∀ (fuel : Nat) (s : IterState), muxMeasure s ≤ fuel →
      countEnds (runFuel fuel s) = expectedEnds s := by
  intro fuel
  induction fuel with
  | zero =>
    intro s h
    cases hph : s.phase <;> simp only [muxMeasure, hph] at h <;>
      first
        | omega
        | simp [runFuel, countEnds, expectedEnds, hph]
  | succ n ih =>
    intro s h
    simp only [runFuel]
    split
    · -- state "stream_beginning"
      rename_i hph
      split
      · rename_i hev
        simp [countEnds, expectedEnds, hph, hev]
      · rename_i e t hev
        rw [countEnds_cons_begin, ih _ ?_]
        · simp [expectedEnds, hph, hev, gocs_events, gocs_eventIndex,
            gocs_currentStream]
        · simp only [muxMeasure, hph] at h
          simp only [muxMeasure, gocs_events, gocs_eventIndex]
          omega
    · -- state "events"
      rename_i hph
      split
      · rename_i e hE
        have hlt : s.eventIndex < s.events.length := by
          by_contra hge
          rw [List.getElem?_eq_none (by omega)] at hE
          exact Option.noConfusion hE
        split
        · -- channel switch
          rw [countEnds_cons_begin, ih _ ?_]
          · simp [expectedEnds, hph, hlt, gocs_events, gocs_eventIndex,
              gocs_phase]
          · simp only [muxMeasure, hph] at h
            simp only [muxMeasure, gocs_events, gocs_eventIndex, gocs_phase, hph]
            omega
        · rename_i hne
          rw [not_ne_iff] at hne
          have hsome : s.currentStream.isSome = true := by
            rw [← hne]; rfl
          have hmu : muxMeasure
              (_get_or_create_stream { s with eventIndex := s.eventIndex + 1 } e).2 ≤ n := by
            simp only [muxMeasure, hph] at h
            simp only [muxMeasure, gocs_events, gocs_eventIndex, gocs_phase, hph]
            omega
          have hexp : expectedEnds
              (_get_or_create_stream { s with eventIndex := s.eventIndex + 1 } e).2 = 1 := by
            have hc : (_get_or_create_stream
                { s with eventIndex := s.eventIndex + 1 } e).2.currentStream =
                s.currentStream := gocs_currentStream _ _
            have hp : (_get_or_create_stream
                { s with eventIndex := s.eventIndex + 1 } e).2.phase =
                MuxPhase.events := by
              simp only [gocs_phase, hph]
            simp only [expectedEnds, hp, hc, hsome, Bool.true_or, if_true]
          split
          · rw [countEnds_cons_event, ih _ hmu, hexp]
            simp [expectedEnds, hph, hsome]
          · split
            · rw [countEnds_cons_event, ih _ hmu, hexp]
              simp [expectedEnds, hph, hsome]
            · rw [ih _ hmu, hexp]
              simp [expectedEnds, hph, hsome]
      · rename_i hE
        have hge : s.events.length ≤ s.eventIndex := by
          by_contra hlt
          rw [List.getElem?_eq_getElem (by omega)] at hE
          exact Option.noConfusion hE
        rw [ih _ ?_]
        · simp only [expectedEnds, hph]
          have : decide (s.eventIndex < s.events.length) = false := by
            simp; omega
          simp [this]
        · simp only [muxMeasure, hph] at h
          simp only [muxMeasure]
          omega
    · -- state "stream_end"
      rename_i hph
      split
      · rename_i hcur
        simp [countEnds, expectedEnds, hph, hcur]
      · rename_i hcur
        simp [countEnds, expectedEnds, hph, hcur]
    · -- state "done"
      rename_i hph
      simp [countEnds, expectedEnds, hph]

/-! ## Claim C4: the channel-key function -/

/-- C4, counterexample.  The claim replaces the category by `"unknown"`
only "when absent"; the code's truthiness test `event_data.category or
'unknown'` also replaces a present-but-empty category.  On an event with
`category = some ""` and `thread_id = 7` the code yields
`"unknown_thread_7"` while the claim's function yields `"_thread_7"`. -/
theorem C4_channel_key_counterexample :
    _get_channel_id
        { name := "x", timestamp := 0, category := some "", tid := some 7 } =
      "unknown_thread_7" ∧
    channelIdSpec
        { name := "x", timestamp := 0, category := some "", tid := some 7 } =
      "_thread_7" ∧
    "unknown_thread_7" ≠ "_thread_7" := by
  refine ⟨rfl, rfl, by decide⟩

/-- C4 (amended): the channel-key function is pure and total and agrees
with the claim's priority order (`thread`, `queue`, `stream`,
`default`/`process_id or 0`) whenever the category is not the empty
string; a present-but-empty category is treated exactly like an absent
one (both become the literal `"unknown"`). -/
theorem C4_channel_key :
    (∀ e : RocmEventData, e.category ≠ some "" → _get_channel_id e = channelIdSpec e) ∧
    (∀ e : RocmEventData, e.category = some "" →
      _get_channel_id e = channelIdSpec { e with category := none }) := by
  constructor
  · intro e h
    cases hc : e.category with
    | none => simp [_get_channel_id, channelIdSpec, pyOrStr, hc]
    | some c =>
      have hne : c ≠ "" := fun hce => h (hce ▸ hc)
      simp [_get_channel_id, channelIdSpec, pyOrStr, hc, hne]
  · intro e h
    simp [_get_channel_id, channelIdSpec, pyOrStr, h]

/-- C4 witness: on a concrete fully-populated event the code's key and
the claim's key coincide. -/
theorem C4_channel_key_witness :
    _get_channel_id
        { name := "x", timestamp := 5, category := some "HIP_RUNTIME_API",
          tid := some 3, queue_id := some 9 } =
      channelIdSpec
        { name := "x", timestamp := 5, category := some "HIP_RUNTIME_API",
          tid := some 3, queue_id := some 9 } :=
  C4_channel_key.1 _ (by decide)

/-! ## Claim C8: event-class (schema) resolution -/

/-- C8, counterexample.  The claim says an event whose name contains
`"region"` maps to the region schema, unconditionally; the code consults
the name only under the truthiness guard on the category, so an event
with no category and the name `"my_region"` resolves to the generic
schema. -/
theorem C8_event_class_counterexample :
    _get_event_class_name_by_category { name := "my_region", timestamp := 0 } =
      "generic_event" ∧
    "region".toList <:+: "my_region".toList ∧
    "generic_event" ≠ "region_event" := by
  refine ⟨rfl, by decide, by decide⟩

/-- C8 (amended): event-class resolution is a pure, total function into
the closed set of five class names, and when a non-empty category is
present it follows the fixed case-insensitive table
(`hip_runtime_api_ext` / `hip_compiler_api_ext` → region;
`kernel_dispatch`, `memory_copy`, `memory_allocation` → their schemas;
otherwise a name containing `"region"` → region); with an absent or
empty category, or on any other miss, it falls back to the generic
schema — the name-contains-region rule applies only under a non-empty
category. -/
theorem C8_event_class :
    (∀ e : RocmEventData,
      _get_event_class_name_by_category e ∈
        ["region_event", "kernel_dispatch_event", "memory_copy_event",
         "memory_allocation_event", "generic_event"]) ∧
    (∀ e : RocmEventData, e.category = none →
      _get_event_class_name_by_category e = "generic_event") ∧
    (∀ e : RocmEventData, e.category = some "" →
      _get_event_class_name_by_category e = "generic_event") ∧
    (∀ (e : RocmEventData) (c : String), e.category = some c → c ≠ "" →
      (strToLower c = "hip_runtime_api_ext" ∨ strToLower c = "hip_compiler_api_ext") →
      _get_event_class_name_by_category e = "region_event") ∧
    (∀ (e : RocmEventData) (c : String), e.category = some c →
      strToLower c = "kernel_dispatch" →
      _get_event_class_name_by_category e = "kernel_dispatch_event") ∧
    (∀ (e : RocmEventData) (c : String), e.category = some c →
      strToLower c = "memory_copy" →
      _get_event_class_name_by_category e = "memory_copy_event") ∧
    (∀ (e : RocmEventData) (c : String), e.category = some c →
      strToLower c = "memory_allocation" →
      _get_event_class_name_by_category e = "memory_allocation_event") ∧
    (∀ (e : RocmEventData) (c : String), e.category = some c → c ≠ "" →
      strToLower c ∉ ["hip_runtime_api_ext", "hip_compiler_api_ext",
        "kernel_dispatch", "memory_copy", "memory_allocation"] →
      "region".toList <:+: e.name.toList →
      _get_event_class_name_by_category e = "region_event") ∧
    (∀ (e : RocmEventData) (c : String), e.category = some c → c ≠ "" →
      strToLower c ∉ ["hip_runtime_api_ext", "hip_compiler_api_ext",
        "kernel_dispatch", "memory_copy", "memory_allocation"] →
      ¬("region".toList <:+: e.name.toList) →
      _get_event_class_name_by_category e = "generic_event") := by
  refine ⟨?_, ?_, ?_, ?_, ?_, ?_, ?_, ?_, ?_⟩
  · intro e
    unfold _get_event_class_name_by_category
    rcases e.category with _ | c
    · simp
    · dsimp only
      split <;> [simp; skip]
      split_ifs <;> simp
  · intro e h; simp [_get_event_class_name_by_category, h]
  · intro e h; simp [_get_event_class_name_by_category, h]
  · intro e c hc hne hl
    rcases hl with h | h <;>
      simp [_get_event_class_name_by_category, hc, hne, h]
  · intro e c hc hl
    have hne : c ≠ "" := by
      intro h; rw [h] at hl; exact absurd hl (by decide)
    have h1 : strToLower c ≠ "hip_runtime_api_ext" := by rw [hl]; decide
    have h2 : strToLower c ≠ "hip_compiler_api_ext" := by rw [hl]; decide
    simp [_get_event_class_name_by_category, hc, hne, h1, h2, hl]
  · intro e c hc hl
    have hne : c ≠ "" := by
      intro h; rw [h] at hl; exact absurd hl (by decide)
    have h1 : strToLower c ≠ "hip_runtime_api_ext" := by rw [hl]; decide
    have h2 : strToLower c ≠ "hip_compiler_api_ext" := by rw [hl]; decide
    have h3 : strToLower c ≠ "kernel_dispatch" := by rw [hl]; decide
    simp [_get_event_class_name_by_category, hc, hne, h1, h2, h3, hl]
  · intro e c hc hl
    have hne : c ≠ "" := by
      intro h; rw [h] at hl; exact absurd hl (by decide)
    have h1 : strToLower c ≠ "hip_runtime_api_ext" := by rw [hl]; decide
    have h2 : strToLower c ≠ "hip_compiler_api_ext" := by rw [hl]; decide
    have h3 : strToLower c ≠ "kernel_dispatch" := by rw [hl]; decide
    have h4 : strToLower c ≠ "memory_copy" := by rw [hl]; decide
    simp [_get_event_class_name_by_category, hc, hne, h1, h2, h3, h4, hl]
  · intro e c hc hne hmem hinf
    simp only [List.mem_cons, not_or] at hmem
    obtain ⟨h1, h2, h3, h4, h5, -⟩ := hmem
    simp only [_get_event_class_name_by_category, hc, hne, h1, h2, h3, h4, h5,
      if_false, if_neg, if_pos hinf]
  · intro e c hc hne hmem hinf
    simp only [List.mem_cons, not_or] at hmem
    obtain ⟨h1, h2, h3, h4, h5, -⟩ := hmem
    simp only [_get_event_class_name_by_category, hc, hne, h1, h2, h3, h4, h5,
      if_false, if_neg, if_pos, if_neg hinf]

/-- C8 witness: concrete resolutions through the amended table. -/
theorem C8_event_class_witness :
    _get_event_class_name_by_category
        { name := "kernel_dispatch_start", timestamp := 0,
          category := some "KERNEL_DISPATCH" } = "kernel_dispatch_event" ∧
    _get_event_class_name_by_category
        { name := "my_region_start", timestamp := 0,
          category := some "MARKER_CORE_API" } = "region_event" :=
  ⟨C8_event_class.2.2.2.2.1 _ "KERNEL_DISPATCH" rfl (by decide),
   C8_event_class.2.2.2.2.2.2.2.1 _ "MARKER_CORE_API" rfl (by decide)
     (by decide) (by decide)⟩

/-! ## Claim C5: every row yields a start/end pair -/

theorem flatMap_pair_length {α : Type} (f g : α → RocmEventData) (l : List α) :
    (l.flatMap fun r => [f r, g r]).length = 2 * l.length := by
  induction l with
  | nil => rfl
  | cons r t ih =>
    simp only [List.flatMap_cons, List.cons_append, List.nil_append,
      List.length_cons, ih, List.length_cons]
    omega

theorem flatMap_pair_paired {α : Type} (P : RocmEventData → RocmEventData → Prop)
    (f g : α → RocmEventData) (l : List α) (h : ∀ r ∈ l, P (f r) (g r)) :
    PairedBy P (l.flatMap fun r => [f r, g r]) := by
  induction l with
  | nil => exact .nil
  | cons r t ih =>
    simp only [List.flatMap_cons, List.cons_append, List.nil_append]
    exact .cons (h r (List.mem_cons_self r t)) (ih fun x hx => h x (List.mem_cons_of_mem r hx))

/-- C5: for each record family, a successful query of `n` rows produces
exactly `2 * n` events, consecutively paired as (start, end) with equal
channel keys, duration arg `0` on the start, and duration arg
`end_timestamp - start_timestamp` on the end. -/
theorem C5_row_pairing :
    (∀ rows : List RegionRow,
      (_load_region_events (.ok rows)).length = 2 * rows.length ∧
      PairedBy goodPair (_load_region_events (.ok rows))) ∧
    (∀ rows : List KernelRow,
      (_load_kernel_dispatch_events (.ok rows)).length = 2 * rows.length ∧
      PairedBy goodPair (_load_kernel_dispatch_events (.ok rows))) ∧
    (∀ rows : List MemcopyRow,
      (_load_memory_copy_events (.ok rows)).length = 2 * rows.length ∧
      PairedBy goodPair (_load_memory_copy_events (.ok rows))) ∧
    (∀ rows : List MemallocRow,
      (_load_memory_allocation_events (.ok rows)).length = 2 * rows.length ∧
      PairedBy goodPair (_load_memory_allocation_events (.ok rows))) :=
  ⟨fun rows => ⟨flatMap_pair_length _ _ rows,
    flatMap_pair_paired _ _ _ rows fun _ _ => ⟨rfl, rfl, rfl⟩⟩,
   fun rows => ⟨flatMap_pair_length _ _ rows,
    flatMap_pair_paired _ _ _ rows fun _ _ => ⟨rfl, rfl, rfl⟩⟩,
   fun rows => ⟨flatMap_pair_length _ _ rows,
    flatMap_pair_paired _ _ _ rows fun _ _ => ⟨rfl, rfl, rfl⟩⟩,
   fun rows => ⟨flatMap_pair_length _ _ rows,
    flatMap_pair_paired _ _ _ rows fun _ _ => ⟨rfl, rfl, rfl⟩⟩⟩

/-! ## Claim C7: per-family all-or-nothing degradation -/

/-- C7: a failed query for one family contributes exactly zero events
while the other families are unaffected (shown for each family, with the
region family also related through `_load_events`), and a family's
contribution is all-or-nothing: either the empty list or exactly two
events per fetched row.  `_load_events` returns a plain list, so no
error reaches the consumer. -/
theorem C7_family_failure_isolated :
    (∀ err : String,
      _load_region_events (.error err) = [] ∧
      _load_kernel_dispatch_events (.error err) = [] ∧
      _load_memory_copy_events (.error err) = [] ∧
      _load_memory_allocation_events (.error err) = []) ∧
    (∀ (err : String) qk qm qa,
      _load_events (.error err) qk qm qa = _load_events (.ok []) qk qm qa) ∧
    (∀ qr : Except String (List RegionRow),
      _load_region_events qr = [] ∨
      ∃ rows, qr = .ok rows ∧ (_load_region_events qr).length = 2 * rows.length) ∧
    (∀ qk : Except String (List KernelRow),
      _load_kernel_dispatch_events qk = [] ∨
      ∃ rows, qk = .ok rows ∧
        (_load_kernel_dispatch_events qk).length = 2 * rows.length) ∧
    (∀ qm : Except String (List MemcopyRow),
      _load_memory_copy_events qm = [] ∨
      ∃ rows, qm = .ok rows ∧
        (_load_memory_copy_events qm).length = 2 * rows.length) ∧
    (∀ qa : Except String (List MemallocRow),
      _load_memory_allocation_events qa = [] ∨
      ∃ rows, qa = .ok rows ∧
        (_load_memory_allocation_events qa).length = 2 * rows.length) := by
  refine ⟨fun err => ⟨rfl, rfl, rfl, rfl⟩, fun err qk qm qa => rfl, ?_, ?_, ?_, ?_⟩
  · rintro (err | rows)
    · exact .inl rfl
    · exact .inr ⟨rows, rfl, flatMap_pair_length _ _ rows⟩
  · rintro (err | rows)
    · exact .inl rfl
    · exact .inr ⟨rows, rfl, flatMap_pair_length _ _ rows⟩
  · rintro (err | rows)
    · exact .inl rfl
    · exact .inr ⟨rows, rfl, flatMap_pair_length _ _ rows⟩
  · rintro (err | rows)
    · exact .inl rfl
    · exact .inr ⟨rows, rfl, flatMap_pair_length _ _ rows⟩

/-! ## Claim C6: the loader's result is a stable timestamp sort -/

theorem sortByTimestamp_cons (e : RocmEventData) (l : List RocmEventData) :
    sortByTimestamp (e :: l) = (sortByTimestamp l).orderedInsert tsLE e := rfl

theorem filter_orderedInsert (t : Int) (e : RocmEventData) :
    ∀ l : List RocmEventData,
      (l.orderedInsert tsLE e).filter (fun x => decide (x.timestamp = t)) =
        (e :: l).filter (fun x => decide (x.timestamp = t)) := by
  intro l
  induction l with
  | nil => rfl
  | cons b l ih =>
    by_cases h : tsLE e b
    · rw [List.orderedInsert, if_pos h]
    · rw [List.orderedInsert, if_neg h]
      by_cases he : e.timestamp = t
      · have hb : ¬b.timestamp = t := by
          have hlt : b.timestamp < e.timestamp := by simpa [tsLE, not_le] using h
          omega
        simp [List.filter_cons, he, hb, ih]
      · simp [List.filter_cons, he, ih]

theorem filter_sortByTimestamp (t : Int) :
    ∀ l : List RocmEventData,
      (sortByTimestamp l).filter (fun x => decide (x.timestamp = t)) =
        l.filter (fun x => decide (x.timestamp = t)) := by
  intro l
  induction l with
  | nil => rfl
  | cons e l ih =>
    rw [sortByTimestamp_cons, filter_orderedInsert, List.filter_cons,
      List.filter_cons, ih]

/-- C6: the loader's result is sorted ascending by timestamp, is a
permutation of the four family lists in program order (region, kernel
dispatch, memory copy, memory allocation), keeps events of equal
timestamp exactly in that family-then-row order (stability), and is a
pure function of the query results, so two loads of an unchanged source
give identical lists. -/
theorem C6_loader_sorted_stable :
    ∀ (qr : Except String (List RegionRow)) (qk : Except String (List KernelRow))
      (qm : Except String (List MemcopyRow)) (qa : Except String (List MemallocRow)),
      List.Sorted tsLE (_load_events qr qk qm qa) ∧
      (_load_events qr qk qm qa).Perm
        (_load_region_events qr ++ _load_kernel_dispatch_events qk ++
         _load_memory_copy_events qm ++ _load_memory_allocation_events qa) ∧
      (∀ t : Int,
        (_load_events qr qk qm qa).filter (fun x => decide (x.timestamp = t)) =
          (_load_region_events qr ++ _load_kernel_dispatch_events qk ++
           _load_memory_copy_events qm ++
           _load_memory_allocation_events qa).filter
            (fun x => decide (x.timestamp = t))) ∧
      _load_events qr qk qm qa = _load_events qr qk qm qa :=
  fun _ _ _ _ =>
    ⟨List.sorted_insertionSort tsLE _,
     List.perm_insertionSort tsLE _,
     fun t => filter_sortByTimestamp t _,
     rfl⟩

/-! ## Claim C9: payload field population -/

/-- C9: the populated payload's field set always equals the selected
schema's declared field set (so the populated fields are a subset of it,
never a superset); entries whose value is `None` are skipped, leaving the
schema field at its type default; entries whose key is not a schema field
are silently discarded; a key present in both with a non-`None` value is
copied; and every event message emitted by any run of the iterator
carries a payload whose field set is the declared field set of its event
class. -/
theorem C9_payload_population :
    (∀ (pl : List (String × Value)) (args : List (String × Option Value)),
      (populate pl args).map Prod.fst = pl.map Prod.fst) ∧
    (∀ (pl : List (String × Value)) (args : List (String × Option Value)),
      populate pl (args.filter fun kv => kv.2.isSome) = populate pl args) ∧
    (∀ (pl : List (String × Value)) (args : List (String × Option Value)),
      populate pl (args.filter fun kv => (pl.map Prod.fst).contains kv.1) =
        populate pl args) ∧
    (∀ (pl : List (String × Value)) (k : String) (v : Value),
      (pl.map Prod.fst).contains k = true →
      (populate pl [(k, some v)]).lookup k = some v) ∧
    (∀ (fuel : Nat) (s : IterState) (sid : Nat) (cn : String) (ts : Int)
       (pl : List (String × Value)),
      Msg.eventMsg sid cn ts pl ∈ runFuel fuel s →
      ∃ fields, eventClassGet cn = some fields ∧
        pl.map Prod.fst = fields.map Prod.fst) := by
  refine ⟨fun pl args => populate_keys args pl,
    fun pl args => populate_filter_isSome args pl,
    fun pl args => populate_filter_known args pl _ rfl, ?_, runFuel_eventMsg_fields⟩
  intro pl k v h
  show (popStep pl (k, some v)).lookup k = some v
  unfold popStep
  rw [h]
  simpa using setField_lookup k v pl h

/-- C9 witness: on the generic schema, a known key with a non-null value
is copied, and a concrete emitted event message has exactly the generic
schema's field set. -/
theorem C9_payload_population_witness :
    (populate genericFields [("event_type", some (.str "go"))]).lookup
        "event_type" = some (.str "go") ∧
    ∃ fields, eventClassGet "generic_event" = some fields ∧
      ([(("event_type" : String), Value.str "")]).map Prod.fst =
        fields.map Prod.fst :=
  ⟨C9_payload_population.2.2.2.1 genericFields "event_type" (.str "go") (by decide),
   C9_payload_population.2.2.2.2 9
     (initState [{ name := "a", timestamp := 1, category := some "CAT1",
                   tid := some 1 }])
     0 "generic_event" 1 [("event_type", Value.str "")] (by decide)⟩

/-! ## Claim C1: the cursor at a channel switch -/

/-- C1: the code violates the claim.  `__next__` increments
`self._event_index` *before* the channel-switch check, so the event that
triggers a switch is consumed and its event message is never produced.
On two events with different channel keys and timestamps 1 and 2, the
full trace contains the channel-begin for the second key but only one
event message, and no event message with timestamp 2 at all. -/
theorem C1_cursor_advanced_at_switch :
    muxTrace
        [{ name := "a", timestamp := 1, category := some "HSA_CORE_API",
           tid := some 1 },
         { name := "b", timestamp := 2, category := some "HSA_CORE_API",
           tid := some 2 }] =
      [Msg.streamBeginning 0,
       Msg.eventMsg 0 "generic_event" 1 [("event_type", Value.str "")],
       Msg.streamBeginning 1,
       Msg.streamEnd 1] ∧
    (muxTrace
        [{ name := "a", timestamp := 1, category := some "HSA_CORE_API",
           tid := some 1 },
         { name := "b", timestamp := 2, category := some "HSA_CORE_API",
           tid := some 2 }]).countP
      (fun m => match m with | .eventMsg _ _ _ _ => true | _ => false) = 1 ∧
    (muxTrace
        [{ name := "a", timestamp := 1, category := some "HSA_CORE_API",
           tid := some 1 },
         { name := "b", timestamp := 2, category := some "HSA_CORE_API",
           tid := some 2 }]).countP
      (fun m =>
        match m with
        | .eventMsg _ _ ts _ => decide (ts = 2)
        | _ => false) = 0 := by
  refine ⟨by decide, by decide, by decide⟩

/-! ## Claim C2: channel framing of the produced sequence -/

/-- C2, counterexample.  On events with keys A, B, B at timestamps
1, 2, 3 the trace contains an event message on channel A's stream (id 0)
but not a single channel-end for it: the only channel-end emitted is the
final one for the last open channel. -/
theorem C2_framing_counterexample :
    muxTrace
        [{ name := "a", timestamp := 1, category := some "HSA_CORE_API",
           tid := some 1 },
         { name := "b", timestamp := 2, category := some "HSA_CORE_API",
           tid := some 2 },
         { name := "c", timestamp := 3, category := some "HSA_CORE_API",
           tid := some 2 }] =
      [Msg.streamBeginning 0,
       Msg.eventMsg 0 "generic_event" 1 [("event_type", Value.str "")],
       Msg.streamBeginning 1,
       Msg.eventMsg 1 "generic_event" 3 [("event_type", Value.str "")],
       Msg.streamEnd 1] ∧
    (muxTrace
        [{ name := "a", timestamp := 1, category := some "HSA_CORE_API",
           tid := some 1 },
         { name := "b", timestamp := 2, category := some "HSA_CORE_API",
           tid := some 2 },
         { name := "c", timestamp := 3, category := some "HSA_CORE_API",
           tid := some 2 }]).countP
      (fun m => match m with | .eventMsg 0 _ _ _ => true | _ => false) = 1 ∧
    (muxTrace
        [{ name := "a", timestamp := 1, category := some "HSA_CORE_API",
           tid := some 1 },
         { name := "b", timestamp := 2, category := some "HSA_CORE_API",
           tid := some 2 },
         { name := "c", timestamp := 3, category := some "HSA_CORE_API",
           tid := some 2 }]).countP
      (fun m => match m with | .streamEnd 0 => true | _ => false) = 0 := by
  refine ⟨by decide, by decide, by decide⟩

/-- C2 (amended): the produced sequence is well framed per contiguous
run — every event message is emitted on the stream of the most recent
channel-begin, so a channel-begin for key K precedes K's events and no
other channel's events are interleaved before the next framing message —
but channel-end messages are not emitted per channel: a nonempty input
produces exactly one channel-end, for the finally open channel, and it
closes the sequence (an empty input produces no framing at all). -/
theorem C2_channel_framing :
    ∀ l : List RocmEventData,
      WellFramed none (muxTrace l) ∧
      countEnds (muxTrace l) = if l.isEmpty then 0 else 1 := by
  intro l
  refine ⟨?_, ?_⟩
  · show WellFramed none (runFuel (muxMeasure (initState l)) (initState l))
    exact runFuel_wellFramed (muxMeasure (initState l)) (initState l)
  · show countEnds (runFuel (muxMeasure (initState l)) (initState l)) = _
    rw [countEnds_runFuel _ _ (le_refl _)]
    cases l with
    | nil => simp [expectedEnds, initState]
    | cons e t => simp [expectedEnds, initState]

/-! ## Claim C10: per-channel stream state is created at most once -/

/-- C10: a channel key present in `self._streams` is returned as-is with
the state unchanged; consequently, for two events with the same channel
key, the stream created by the first get-or-create is returned
identically by a later get-or-create, no matter how many other events
were classified in between — so when a key reappears after its
contiguous run ended, the fresh channel-begin reuses the same stream, as
the concrete reappearance trace shows (the same stream id 0 is begun
twice). -/
theorem C10_stream_reuse :
    (∀ (s : IterState) (e : RocmEventData) (sid : Nat),
      s.streams.lookup (_get_channel_id e) = some sid →
      _get_or_create_stream s e = (sid, s)) ∧
    (∀ (s : IterState) (e₁ e₂ : RocmEventData) (es : List RocmEventData),
      _get_channel_id e₁ = _get_channel_id e₂ →
      _get_or_create_stream (processAll (_get_or_create_stream s e₁).2 es) e₂ =
        ((_get_or_create_stream s e₁).1,
         processAll (_get_or_create_stream s e₁).2 es)) ∧
    (muxTrace
        [{ name := "a", timestamp := 1, category := some "HSA_CORE_API",
           tid := some 1 },
         { name := "b", timestamp := 2, category := some "HSA_CORE_API",
           tid := some 1 },
         { name := "c", timestamp := 3, category := some "HSA_CORE_API",
           tid := some 2 },
         { name := "d", timestamp := 4, category := some "HSA_CORE_API",
           tid := some 2 },
         { name := "e", timestamp := 5, category := some "HSA_CORE_API",
           tid := some 1 },
         { name := "f", timestamp := 6, category := some "HSA_CORE_API",
           tid := some 1 }]).countP
      (fun m => match m with | .streamBeginning 0 => true | _ => false) = 2 := by
  refine ⟨fun s e sid h => gocs_found h, ?_, by decide⟩
  intro s e₁ e₂ es hk
  have h1 := gocs_lookup s e₁
  have h2 := processAll_preserves es _ h1
  rw [hk] at h2
  exact gocs_found h2

/-- C10 witness: a concrete state that already maps the key of a
concrete event returns the stored stream id and is left unchanged. -/
theorem C10_stream_reuse_witness :
    _get_or_create_stream
        { events := [], eventIndex := 0, phase := .done,
          streams := [("unknown_thread_1", 5)], nextStreamId := 6,
          channels := [], currentStream := none }
        { name := "x", timestamp := 0, tid := some 1 } =
      (5, { events := [], eventIndex := 0, phase := .done,
            streams := [("unknown_thread_1", 5)], nextStreamId := 6,
            channels := [], currentStream := none }) :=
  C10_stream_reuse.1 _ _ 5 (by decide)

/-! ## Claim C3: construction-time validation -/

/-- C3, counterexample.  The claim says a missing source-path parameter
raises a configuration error; the code defaults a missing `db-path` to
`'24228_results.db'` and, when that file exists, construction succeeds
with no error at all. -/
theorem C3_init_counterexample :
    rocmSourceInit none (fun _ => true) = .ok "24228_results.db" := rfl

/-- C3 (amended): a present-but-empty `db-path` raises the configuration
(`ValueError`) at construction; a missing `db-path` silently falls back
to the default path `'24228_results.db'`; a non-empty path that does not
exist raises the not-found error at construction; and a constructor
error always precedes any produced message. -/
theorem C3_init :
    (∀ ex : String → Bool, rocmSourceInit (some "") ex =
      .error (.valueError "Database path parameter 'db-path' is required")) ∧
    (∀ ex : String → Bool, rocmSourceInit none ex =
      rocmSourceInit (some defaultDbPath) ex) ∧
    (∀ (p : String) (ex : String → Bool), p ≠ "" → ex p = false →
      rocmSourceInit (some p) ex =
        .error (.fileNotFoundError s!"Database file not found: {p}")) ∧
    (∀ (dbp : Option String) (ex : String → Bool) (err : InitError) qr qk qm qa,
      rocmSourceInit dbp ex = .error err →
      rocmSourceMessages dbp ex qr qk qm qa = .error err) := by
  refine ⟨fun ex => rfl, fun ex => rfl, ?_, ?_⟩
  · intro p ex hp hex
    simp [rocmSourceInit, hp, hex]
  · intro dbp ex err qr qk qm qa h
    simp [rocmSourceMessages, h, Except.map]

/-- C3 witness: empty path and nonexistent path both fail at
construction, eagerly, on concrete inputs. -/
theorem C3_init_witness :
    rocmSourceInit (some "") (fun _ => true) =
      .error (.valueError "Database path parameter 'db-path' is required") ∧
    rocmSourceInit (some "missing.db") (fun _ => false) =
      .error (.fileNotFoundError "Database file not found: missing.db") ∧
    rocmSourceMessages (some "missing.db") (fun _ => false)
        (.ok []) (.ok []) (.ok []) (.ok []) =
      .error (.fileNotFoundError "Database file not found: missing.db") :=
  ⟨C3_init.1 _,
   C3_init.2.2.1 "missing.db" _ (by decide) rfl,
   C3_init.2.2.2 _ _ _ _ _ _ _ (C3_init.2.2.1 "missing.db" _ (by decide) rfl)⟩

end Rocpd
